import Mathlib

/-!
Shallow embedding of `src/code/main.py` from the repository
`Lcressot/ReScience-submission` (robotic-priors state-representation
learning with a fitted-Q-iteration evaluation loop).

The repository ships only the orchestration script `main.py`; the modules it
imports (`tools`, `jonschkowski_priors`, `fqiteration`, `gym_env.*`) are
external collaborators.  They are modelled here as an abstract `Collab`
record of functions, so every theorem quantifies over all possible
collaborator behaviours; the orchestration logic itself (argument checks,
seeding, the learning-epoch loop, the q-learning trial loop, the loss
records, the performance tensor and the final unweighting of losses) is
translated line by line from `main.py`.

Python floats are modelled as rationals; numpy arrays as a shape together
with a total indexing function; Python exceptions as `Except`.
-/

namespace RoboticPriors

/-- main.py line 139: `n_qlearnings = 10`. -/
def n_qlearnings : Nat := 10

/-- main.py line 140: `n_test_episodes = 20`. -/
def n_test_episodes : Nat := 20

/-- main.py line 141: `n_test_steps = 25`. -/
def n_test_steps : Nat := 25

/-- main.py line 142: `n_rbf = 100`. -/
def n_rbf : Nat := 100

/-- The four loss weights, main.py line 53: a 4-tuple
`(wt, wp, wc, wr)` with defaults `(1.0, 5.0, 1.0, 5.0)`. -/
structure Weights where
  wt : ℚ
  wp : ℚ
  wc : ℚ
  wr : ℚ
deriving DecidableEq

/-- Python tuple indexing `args.weights[i]` for `i = 0,1,2,3`. -/
def Weights.idx (w : Weights) : Nat → ℚ
  | 0 => w.wt
  | 1 => w.wp
  | 2 => w.wc
  | 3 => w.wr
  | _ => 0

/-- The command-line arguments of main.py (lines 37..58) that the
orchestration reads, with the argparse defaults. -/
structure Args where
  training_data : String
  test_data : String := ""
  qlearning : Bool := false
  recordto : String := ""
  num_epochs : Nat := 25
  learning_rate : ℚ := 1 / 10000
  l1_reg : ℚ := 1 / 1000
  state_dim : Nat := 2
  validation_ratio : ℚ := 1 / 10
  batch_size : Nat := 256
  seed : Option Int := none
  tanh_units : Option Nat := none
  weights : Weights := ⟨1, 5, 1, 5⟩
  display : Bool := false
  visible_train : Bool := false
  verbose : Bool := false

/-- The three fatal configuration checks of main.py lines 66..73. -/
inductive ConfigError
  | noOutputSelected
  | qlearningNeedsRecord
  | wrongValidationRatio
deriving DecidableEq

/-- Runtime errors of the embedded run: a configuration error, a Python
IndexError (indexing `[0]` into an empty history list) or a numpy reshape
size mismatch. -/
inductive RunError
  | config (e : ConfigError)
  | indexError
  | reshapeError
deriving DecidableEq

/-- main.py lines 60-61: append a trailing slash to a nonempty `recordto`. -/
def normalizeRecordto (r : String) : String :=
  if r ≠ "" ∧ r.back ≠ '/' then r ++ "/" else r

/-- main.py lines 60-73: normalize `recordto`, then the three fatal checks,
in source order: neither record nor display (line 66), q-learning without a
record folder (line 69), `validation_ratio` outside the open interval
`]0,1[` (line 72). -/
def checkArgs (a : Args) : Except ConfigError Args :=
  let a1 : Args := { a with recordto := normalizeRecordto a.recordto }
  if ¬ (a1.recordto ≠ "" ∨ a1.display = true) then .error .noOutputSelected
  else if a1.qlearning = true ∧ a1.recordto = "" then .error .qlearningNeedsRecord
  else if a1.validation_ratio ≤ 0 ∨ 1 ≤ a1.validation_ratio then .error .wrongValidationRatio
  else .ok a1

/-- main.py line 76: `np.random.seed(args.seed if args.seed else int(time.time()))`.
Python truthiness: both `None` and `0` select the wall-clock fallback. -/
def chosenSeed (seed : Option Int) (wallclock : Int) : Int :=
  match seed with
  | some s => if s ≠ 0 then s else wallclock
  | none => wallclock

/-- The per-epoch validation-loss history returned by
`tools.learn_states` (keys `val_t_loss`, `val_p_loss`, `val_c_loss`,
`val_r_loss` of `history.history`, main.py lines 106-109 and 211-214). -/
structure History where
  val_t_loss : List ℚ
  val_p_loss : List ℚ
  val_c_loss : List ℚ
  val_r_loss : List ℚ

/-- The fields of the loaded training data that the q-learning branch
reads: `rewards`, `actions_int` and `num_actions` (main.py lines 136-137,
237). -/
structure TrainingData where
  rewards : List ℚ
  actions_int : List Int
  num_actions : Nat

/-- Result of one `tools.learn_states` call: the updated model (mutated in
place in Python), the computed states and the validation-loss history. -/
structure LearnOut (Model States : Type) where
  model : Model
  states : States
  history : History

/-- One `fqi.Fitted_QIteration(n_rbf=..., n_actions=...)` constructor call,
main.py line 235. -/
structure FittedQIteration where
  n_rbf : Nat
  n_actions : Nat
deriving DecidableEq

/-- The arguments of one `qit.fit_sk(states, actions_int, rewards, 0.9, 10,
recompute_mapping=True)` call, main.py line 237, together with the
constructor parameters of the learner it is invoked on. -/
structure FitCall (States : Type) where
  n_rbf : Nat
  n_actions : Nat
  states : States
  actions_int : List Int
  rewards : List ℚ
  gamma : ℚ
  n_iterations : Nat
  recompute_mapping : Bool

/-- Trace record of one q-learning trial: which epoch and trial it is, the
fit call it issued, the policy that fit returned, and the flat rewards list
the evaluation run produced (main.py lines 232-245). -/
structure TrialRecord (States Policy : Type) where
  epoch : Nat
  trial : Nat
  fit : FitCall States
  policy : Policy
  rewards : List ℚ

/-- Modelled from the spec: the modules `tools`, `jonschkowski_priors`,
`fqiteration` and `gym_env` imported by main.py are not part of the
repository's sources, so their operations are abstracted as arbitrary
functions: the loaded training data, the freshly constructed priors model,
`tools.learn_states`, `qit.fit_sk` (as a function of the full call
record), the policy rollout `rb_agent.run_in_env(env, n_test_episodes)`
returning the flat `stats.rewards` list, and the wall clock read by
`time.time()`.  Theorems quantify over every such assembly. -/
structure Collab (Model States Policy : Type) where
  training_data : TrainingData
  init_model : Model
  learn_states : Model → Nat → LearnOut Model States
  fit_sk : FitCall States → Policy
  run_in_env : Policy → Nat → List ℚ
  wallclock : Int

/-- A 1-dimensional numpy array of rationals: its size and a total indexing
function (reads outside the size never occur in the embedded runs). -/
@[ext] structure NPArray1 where
  size : Nat
  data : Nat → ℚ

/-- A 4-dimensional numpy array of rationals. -/
@[ext] structure NPArray4 where
  shape : Nat × Nat × Nat × Nat
  data : Nat → Nat → Nat → Nat → ℚ

/-- `np.zeros(n)`. -/
def np_zeros1 (n : Nat) : NPArray1 := ⟨n, fun _ => 0⟩

/-- `np.zeros([a,b,c,d])`, main.py line 146. -/
def np_zeros4 (a b c d : Nat) : NPArray4 := ⟨(a, b, c, d), fun _ _ _ _ => 0⟩

/-- `np.array(l)` from a Python list. -/
def npFromList (l : List ℚ) : NPArray1 := ⟨l.length, fun i => l.getD i 0⟩

/-- `np.reshape(x, [rows, cols])`, main.py line 245: fails unless the flat
length matches exactly. -/
def np_reshape2 (l : List ℚ) (rows cols : Nat) : Option (Nat → Nat → ℚ) :=
  if l.length = rows * cols then some (fun i j => l.getD (i * cols + j) 0) else none

/-- Array write `a[i] = v` on a 1-d array. -/
def write1 (a : NPArray1) (i : Nat) (v : ℚ) : NPArray1 :=
  { a with data := fun j => if j = i then v else a.data j }

/-- Slice write `t[e, q, :, :] = r` on the performance tensor: overwrites
exactly the in-bounds `[n_test_episodes, n_test_steps]` block of row
`(e, q)`. -/
def sliceWrite (d : Nat → Nat → Nat → Nat → ℚ) (e q : Nat) (r : Nat → Nat → ℚ) :
    Nat → Nat → Nat → Nat → ℚ :=
  fun e' q' ep st =>
    if e' = e ∧ q' = q ∧ ep < n_test_episodes ∧ st < n_test_steps then r ep st
    else d e' q' ep st

/-- Python list indexing `l[0]`: IndexError on an empty list. -/
def pyIdx0 (l : List ℚ) : Except RunError ℚ :=
  match l.head? with
  | some v => .ok v
  | none => .error .indexError

/-- IEEE division of a finite numerator by a scalar, as numpy performs it
elementwise at main.py lines 257-260 with warnings suppressed (line 33):
the result is a finite value exactly when the divisor is nonzero (`x / 0`
is `inf` or `nan`, modelled as `none`). -/
def finDiv (x w : ℚ) : Option ℚ := if w = 0 then none else some (x / w)

/-- Elementwise unweighting `np.array(record) / w` of one loss record. -/
def unweight (a : NPArray1) (w : ℚ) : Nat → Option ℚ := fun i => finDiv (a.data i) w

/-- The mutable state of the learning-iteration loop of main.py lines
190-249: the priors model (mutated in place by `learn_states`), the most
recently computed states, the four loss-record arrays (lines 193-196), the
performance tensor (line 146), plus the trace of q-learning trials, of
epochs that triggered `plot_representation` (line 217), and of the
`num_epochs` argument of each `learn_states` call. -/
@[ext] structure LoopState (Model States Policy : Type) where
  model : Model
  curStates : Option States
  t_rec : NPArray1
  p_rec : NPArray1
  c_rec : NPArray1
  r_rec : NPArray1
  perf : NPArray4
  trials : List (TrialRecord States Policy)
  plots : List Nat
  learnCalls : List Nat

/-- The loop state before the first epoch: zero-filled records of size
`num_epochs` (lines 193-196) and the zero performance tensor of shape
`[num_epochs, n_qlearnings, n_test_episodes, n_test_steps]` (line 146). -/
def initState {Model States Policy : Type} (C : Collab Model States Policy)
    (num_epochs : Nat) : LoopState Model States Policy :=
  { model := C.init_model
    curStates := none
    t_rec := np_zeros1 num_epochs
    p_rec := np_zeros1 num_epochs
    c_rec := np_zeros1 num_epochs
    r_rec := np_zeros1 num_epochs
    perf := np_zeros4 num_epochs n_qlearnings n_test_episodes n_test_steps
    trials := []
    plots := []
    learnCalls := [] }

/-- One q-learning trial, main.py lines 232-245: construct a fresh
`Fitted_QIteration(n_rbf=n_rbf, n_actions=n_actions)`, fit a policy with
`fit_sk(states, actions_int, rewards, 0.9, 10, recompute_mapping=True)`,
evaluate it with `run_in_env(env, n_test_episodes)`, and write the rewards,
reshaped to `[n_test_episodes, n_test_steps]`, into
`test_performance[learning_epoch, q_learning, :, :]`. -/
def runTrial {Model States Policy : Type} (C : Collab Model States Policy)
    (states : States) (learning_epoch q_learning : Nat)
    (s : LoopState Model States Policy) :
    Except RunError (LoopState Model States Policy) :=
  let qit : FittedQIteration :=
    { n_rbf := n_rbf, n_actions := C.training_data.num_actions }
  let call : FitCall States :=
    { n_rbf := qit.n_rbf
      n_actions := qit.n_actions
      states := states
      actions_int := C.training_data.actions_int
      rewards := C.training_data.rewards
      gamma := 9 / 10
      n_iterations := 10
      recompute_mapping := true }
  let state_policy : Policy := C.fit_sk call
  let statsRewards : List ℚ := C.run_in_env state_policy n_test_episodes
  match np_reshape2 statsRewards n_test_episodes n_test_steps with
  | none => .error .reshapeError
  | some r =>
    .ok { s with
          perf := { s.perf with
                    data := sliceWrite s.perf.data learning_epoch q_learning r }
          trials := s.trials ++
            [{ epoch := learning_epoch, trial := q_learning, fit := call,
               policy := state_policy, rewards := statsRewards }] }

/-- The first `q` iterations of the q-learning loop
`for q_learning in range(n_qlearnings)` of main.py line 232. -/
def runTrials {Model States Policy : Type} (C : Collab Model States Policy)
    (states : States) (learning_epoch : Nat)
    (s : LoopState Model States Policy) :
    Nat → Except RunError (LoopState Model States Policy)
  | 0 => .ok s
  | q + 1 =>
    match runTrials C states learning_epoch s q with
    | .error e => .error e
    | .ok s' => runTrial C states learning_epoch q s'

/-- One iteration of the learning loop of main.py lines 198-249: call
`learn_states` for exactly one epoch (line 203), record the four validation
losses at index `learning_epoch` (lines 211-214), trigger the
representation plot when `learning_epoch == 0 or (learning_epoch+1) % 5 == 0`
(line 217), then run the `n_qlearnings` trials. -/
def runEpoch {Model States Policy : Type} (C : Collab Model States Policy)
    (learning_epoch : Nat) (s : LoopState Model States Policy) :
    Except RunError (LoopState Model States Policy) :=
  let out := C.learn_states s.model 1
  match pyIdx0 out.history.val_t_loss with
  | .error e => .error e
  | .ok t0 =>
  match pyIdx0 out.history.val_p_loss with
  | .error e => .error e
  | .ok p0 =>
  match pyIdx0 out.history.val_c_loss with
  | .error e => .error e
  | .ok c0 =>
  match pyIdx0 out.history.val_r_loss with
  | .error e => .error e
  | .ok r0 =>
    let s1 : LoopState Model States Policy :=
      { s with
        model := out.model
        curStates := some out.states
        t_rec := write1 s.t_rec learning_epoch t0
        p_rec := write1 s.p_rec learning_epoch p0
        c_rec := write1 s.c_rec learning_epoch c0
        r_rec := write1 s.r_rec learning_epoch r0
        learnCalls := s.learnCalls ++ [1] }
    let s2 : LoopState Model States Policy :=
      if learning_epoch = 0 ∨ (learning_epoch + 1) % 5 = 0 then
        { s1 with plots := s1.plots ++ [learning_epoch] }
      else s1
    runTrials C out.states learning_epoch s2 n_qlearnings

/-- The first `n` iterations of `for learning_epoch in range(args.num_epochs)`
(main.py line 198), starting from the freshly initialised loop state. -/
def runEpochs {Model States Policy : Type} (C : Collab Model States Policy)
    (num_epochs : Nat) : Nat → Except RunError (LoopState Model States Policy)
  | 0 => .ok (initState C num_epochs)
  | n + 1 =>
    match runEpochs C num_epochs n with
    | .error e => .error e
    | .ok s => runEpoch C n s

/-- The observable outcome of a run of main.py that the claims talk about:
the four recorded loss series, their unweighted versions (lines 256-260),
the performance tensor (q-learning mode only), the traces of trials, plot
triggers and `learn_states` calls, the final states, and the seed passed to
`np.random.seed`. -/
structure MainResult (States Policy : Type) where
  t_rec : NPArray1
  p_rec : NPArray1
  c_rec : NPArray1
  r_rec : NPArray1
  t_unw : Nat → Option ℚ
  p_unw : Nat → Option ℚ
  c_unw : Nat → Option ℚ
  r_unw : Nat → Option ℚ
  test_performance : Option NPArray4
  trials : List (TrialRecord States Policy)
  plots : List Nat
  learnCalls : List Nat
  states : Option States
  seedUsed : Int

/-- Package the final loop state of the q-learning branch, applying the
unweighting of main.py lines 256-260: causality by `weights[2]`,
repeatability by `weights[3]`, proportionality by `weights[1]`, temporal
coherence by `weights[0]`. -/
def finishQL {Model States Policy : Type} (a : Args) (seed : Int)
    (s : LoopState Model States Policy) : MainResult States Policy :=
  { t_rec := s.t_rec
    p_rec := s.p_rec
    c_rec := s.c_rec
    r_rec := s.r_rec
    t_unw := unweight s.t_rec (a.weights.idx 0)
    p_unw := unweight s.p_rec (a.weights.idx 1)
    c_unw := unweight s.c_rec (a.weights.idx 2)
    r_unw := unweight s.r_rec (a.weights.idx 3)
    test_performance := some s.perf
    trials := s.trials
    plots := s.plots
    learnCalls := s.learnCalls
    states := s.curStates
    seedUsed := seed }

/-- The non-q-learning branch of main.py lines 94-116: one `learn_states`
call for the full `num_epochs`, loss records taken from its history lists
(lines 106-109), then the same unweighting (lines 256-260). -/
def finishSimple {Model States Policy : Type} (a : Args) (seed : Int)
    (out : LearnOut Model States) : MainResult States Policy :=
  let t := npFromList out.history.val_t_loss
  let p := npFromList out.history.val_p_loss
  let c := npFromList out.history.val_c_loss
  let r := npFromList out.history.val_r_loss
  { t_rec := t
    p_rec := p
    c_rec := c
    r_rec := r
    t_unw := unweight t (a.weights.idx 0)
    p_unw := unweight p (a.weights.idx 1)
    c_unw := unweight c (a.weights.idx 2)
    r_unw := unweight r (a.weights.idx 3)
    test_performance := none
    trials := []
    plots := []
    learnCalls := [a.num_epochs]
    states := some out.states
    seedUsed := seed }

/-- The embedded run of main.py: the configuration checks (lines 60-73),
the seeding (line 76), then either the plain learning branch (lines 94-116)
or the q-learning experiment loop (lines 122-249), ending in the
unweighting and plotting stage (lines 252 onward). -/
def runMain {Model States Policy : Type} (C : Collab Model States Policy)
    (a : Args) : Except RunError (MainResult States Policy) :=
  match checkArgs a with
  | .error e => .error (.config e)
  | .ok a1 =>
    let seed := chosenSeed a1.seed C.wallclock
    if a1.qlearning = true then
      match runEpochs C a1.num_epochs a1.num_epochs with
      | .error e => .error e
      | .ok s => .ok (finishQL a1 seed s)
    else
      .ok (finishSimple a1 seed (C.learn_states C.init_model a1.num_epochs))

/-- The priors model after `e` single-epoch `learn_states` calls. -/
def modelAfter {Model States Policy : Type} (C : Collab Model States Policy) :
    Nat → Model
  | 0 => C.init_model
  | e + 1 => (C.learn_states (modelAfter C e) 1).model

/-- The outcome of the `learn_states` call of epoch `e` in the q-learning
loop (each call trains the model of the previous epochs for one more
epoch). -/
def learnAt {Model States Policy : Type} (C : Collab Model States Policy)
    (e : Nat) : LearnOut Model States :=
  C.learn_states (modelAfter C e) 1

/-- The fit call every trial issues, on the given states: a fresh learner
with `n_rbf` basis functions and the dataset's action count, discount
`0.9`, `10` iterations, `recompute_mapping=True`. -/
def mkFitCall {Model States Policy : Type} (C : Collab Model States Policy)
    (st : States) : FitCall States :=
  { n_rbf := n_rbf
    n_actions := C.training_data.num_actions
    states := st
    actions_int := C.training_data.actions_int
    rewards := C.training_data.rewards
    gamma := 9 / 10
    n_iterations := 10
    recompute_mapping := true }

/-- The trial record trial `q` of an epoch produces when the epoch's states
are `st`. -/
def mkTrial {Model States Policy : Type} (C : Collab Model States Policy)
    (st : States) (e q : Nat) : TrialRecord States Policy :=
  { epoch := e
    trial := q
    fit := mkFitCall C st
    policy := C.fit_sk (mkFitCall C st)
    rewards := C.run_in_env (C.fit_sk (mkFitCall C st)) n_test_episodes }

/-- The trial record of epoch `e`, trial `q`: fit on the states computed by
epoch `e`'s `learn_states` call. -/
def trialSpec {Model States Policy : Type} (C : Collab Model States Policy)
    (e q : Nat) : TrialRecord States Policy :=
  mkTrial C (learnAt C e).states e q

/-- All trial records of the first `N` epochs, in execution order. -/
def trialsUpTo {Model States Policy : Type} (C : Collab Model States Policy) :
    Nat → List (TrialRecord States Policy)
  | 0 => []
  | e + 1 => trialsUpTo C e ++ (List.range n_qlearnings).map (trialSpec C e)

/-- Reading the flat rewards list of a rollout as a `[n_test_episodes,
n_test_steps]` matrix (entry `(ep, st)` is flat entry `ep * n_test_steps + st`). -/
def flatAt (l : List ℚ) (ep st : Nat) : ℚ := l.getD (ep * n_test_steps + st) 0

/-- The performance-tensor contents after the first `q` trials of epoch `e`
run on states `st`, over previous contents `D`: rows `(e, q')` with
`q' < q` hold trial `q'`'s rewards, everything else is unchanged. -/
def perfFill {Model States Policy : Type} (C : Collab Model States Policy)
    (st : States) (e q : Nat) (D : Nat → Nat → Nat → Nat → ℚ) :
    Nat → Nat → Nat → Nat → ℚ :=
  fun e' q' ep stp =>
    if e' = e ∧ q' < q ∧ ep < n_test_episodes ∧ stp < n_test_steps
    then flatAt (mkTrial C st e q').rewards ep stp
    else D e' q' ep stp

/-- The recorded validation losses of epoch `e` (entry `[0]` of each
history list of that epoch's single-epoch `learn_states` call). -/
def tVal {Model States Policy : Type} (C : Collab Model States Policy) (e : Nat) : ℚ :=
  (learnAt C e).history.val_t_loss.headD 0

/-- Recorded proportionality loss of epoch `e`. -/
def pVal {Model States Policy : Type} (C : Collab Model States Policy) (e : Nat) : ℚ :=
  (learnAt C e).history.val_p_loss.headD 0

/-- Recorded causality loss of epoch `e`. -/
def cVal {Model States Policy : Type} (C : Collab Model States Policy) (e : Nat) : ℚ :=
  (learnAt C e).history.val_c_loss.headD 0

/-- Recorded repeatability loss of epoch `e`. -/
def rVal {Model States Policy : Type} (C : Collab Model States Policy) (e : Nat) : ℚ :=
  (learnAt C e).history.val_r_loss.headD 0

/-- The plot-trigger condition of main.py line 217, as a Boolean. -/
def plotCond (e : Nat) : Bool := e == 0 || (e + 1) % 5 == 0

/-- The explicit loop state after the first `N` epochs of the q-learning
experiment loop (with records allocated for `num_epochs` epochs). -/
def specState {Model States Policy : Type} (C : Collab Model States Policy)
    (num_epochs N : Nat) : LoopState Model States Policy :=
  { model := modelAfter C N
    curStates := if N = 0 then none else some (learnAt C (N - 1)).states
    t_rec := ⟨num_epochs, fun i => if i < N then tVal C i else 0⟩
    p_rec := ⟨num_epochs, fun i => if i < N then pVal C i else 0⟩
    c_rec := ⟨num_epochs, fun i => if i < N then cVal C i else 0⟩
    r_rec := ⟨num_epochs, fun i => if i < N then rVal C i else 0⟩
    perf := ⟨(num_epochs, n_qlearnings, n_test_episodes, n_test_steps),
             fun e q ep st =>
               if e < N ∧ q < n_qlearnings ∧ ep < n_test_episodes ∧ st < n_test_steps
               then flatAt (trialSpec C e q).rewards ep st
               else 0⟩
    trials := trialsUpTo C N
    plots := (List.range N).filter plotCond
    learnCalls := List.replicate N 1 }

/-- Modelled from the spec: the shape contract of the missing collaborator
modules.  `learn_states` invoked for one epoch returns at least one entry
in each validation loss history (spec 4.2: "returning per-epoch/per-term
validation loss history"), and a rollout over `n_test_episodes` episodes
returns `n_test_episodes * n_test_steps` per-step rewards (spec 4.5 /
section 8: "running 20 episodes of 25 steps yields a reward tensor of
shape `[20, 25]`"). -/
def Collab.WF {Model States Policy : Type} (C : Collab Model States Policy) : Prop :=
  (∀ m : Model,
      (C.learn_states m 1).history.val_t_loss ≠ [] ∧
      (C.learn_states m 1).history.val_p_loss ≠ [] ∧
      (C.learn_states m 1).history.val_c_loss ≠ [] ∧
      (C.learn_states m 1).history.val_r_loss ≠ []) ∧
  (∀ p : Policy,
      (C.run_in_env p n_test_episodes).length = n_test_episodes * n_test_steps)

/-- A tiny concrete dataset used to instantiate the theorems. -/
def demoData : TrainingData :=
  { rewards := [1, 0, 1, 0], actions_int := [0, 1, 0, 1], num_actions := 2 }

/-- A concrete well-formed collaborator assembly used to instantiate the
theorems: models and states are natural numbers, policies are natural
numbers, every rollout returns a constant rewards list of the right
length. -/
def demoCollab : Collab Nat Nat Nat :=
  { training_data := demoData
    init_model := 0
    learn_states := fun m n =>
      { model := m + 1
        states := m
        history :=
          { val_t_loss := List.replicate n ((m : ℚ) + 1)
            val_p_loss := List.replicate n 2
            val_c_loss := List.replicate n 3
            val_r_loss := List.replicate n 4 } }
    fit_sk := fun c => c.n_actions
    run_in_env := fun p n => List.replicate (n * n_test_steps) ((p : ℚ))
    wallclock := 1000 }

/-- Concrete q-learning arguments used to instantiate the theorems. -/
def demoArgs : Args :=
  { training_data := "data.npz"
    qlearning := true
    recordto := "out/"
    num_epochs := 2
    display := false }

/-- Whether the configuration checks of main.py lines 60-73 accept the
arguments (no exception raised before data loading). -/
def checksPass (a : Args) : Bool :=
  match checkArgs a with
  | .ok _ => true
  | .error _ => false

/-! ### Loop characterisation lemmas -/

lemma pyIdx0_ne (l : List ℚ) (h : l ≠ []) : pyIdx0 l = .ok (l.headD 0) := by
  cases l with
  | nil => exact absurd rfl h
  | cons a t => rfl

lemma runTrials_ok {Model States Policy : Type} (C : Collab Model States Policy)
    (hWF : C.WF) (st : States) (e : Nat) (s : LoopState Model States Policy) :
    ∀ q, runTrials C st e s q = .ok
      { s with
        perf := { s.perf with data := perfFill C st e q s.perf.data }
        trials := s.trials ++ (List.range q).map (mkTrial C st e) } := by
  intro q
  induction q with
  | zero =>
      have hdata : perfFill C st e 0 s.perf.data = s.perf.data := by
        funext e' q' ep stp
        simp [perfFill]
      simp [runTrials, hdata]
  | succ q ih =>
      rw [runTrials, ih]
      have hlen := hWF.2 (C.fit_sk (mkFitCall C st))
      have hresh : np_reshape2 (C.run_in_env (C.fit_sk (mkFitCall C st)) n_test_episodes)
          n_test_episodes n_test_steps
          = some (fun i j =>
              (C.run_in_env (C.fit_sk (mkFitCall C st)) n_test_episodes).getD
                (i * n_test_steps + j) 0) := by
        simp [np_reshape2, hlen]
      simp only [runTrial, mkFitCall] at hresh ⊢
      rw [hresh]
      dsimp only
      have hperf : sliceWrite (perfFill C st e q s.perf.data) e q
            (fun i j =>
              (C.run_in_env (C.fit_sk (mkFitCall C st)) n_test_episodes).getD
                (i * n_test_steps + j) 0)
          = perfFill C st e (q + 1) s.perf.data := by
        funext e' q' ep stp
        simp only [sliceWrite, perfFill]
        by_cases h1 : e' = e ∧ q' = q ∧ ep < n_test_episodes ∧ stp < n_test_steps
        · obtain ⟨he, hq, hep, hst⟩ := h1
          subst he; subst hq
          simp [flatAt, mkTrial, hep, hst, Nat.lt_succ_self]
        · rw [if_neg h1]
          by_cases h2 : e' = e ∧ q' < q ∧ ep < n_test_episodes ∧ stp < n_test_steps
          · rw [if_pos h2, if_pos ⟨h2.1, Nat.lt_succ_of_lt h2.2.1, h2.2.2⟩]
          · rw [if_neg h2, if_neg (fun hc => by
              obtain ⟨he, hq, hrest⟩ := hc
              rcases Nat.lt_succ_iff_lt_or_eq.1 hq with hlt | heq
              · exact h2 ⟨he, hlt, hrest⟩
              · exact h1 ⟨he, heq, hrest⟩)]
      simp only [mkFitCall] at hperf
      rw [hperf]
      rw [List.range_succ, List.map_append, ← List.append_assoc]
      simp [mkTrial, mkFitCall]

lemma write1_step (num_epochs N : Nat) (g : Nat → ℚ) :
    write1 ⟨num_epochs, fun i => if i < N then g i else 0⟩ N (g N)
      = ⟨num_epochs, fun i => if i < N + 1 then g i else 0⟩ := by
  unfold write1
  congr 1
  funext j
  by_cases hj : j = N
  · subst hj
    simp
  · rw [if_neg hj]
    dsimp only
    by_cases hj2 : j < N
    · rw [if_pos hj2, if_pos (Nat.lt_succ_of_lt hj2)]
    · rw [if_neg hj2, if_neg (by omega)]

lemma runEpoch_ok {Model States Policy : Type} (C : Collab Model States Policy)
    (hWF : C.WF) (num_epochs N : Nat) :
    runEpoch C N (specState C num_epochs N) = .ok (specState C num_epochs (N + 1)) := by
  have h4 := hWF.1 (modelAfter C N)
  have ht : pyIdx0 (C.learn_states (modelAfter C N) 1).history.val_t_loss
      = Except.ok (tVal C N) := pyIdx0_ne _ h4.1
  have hp : pyIdx0 (C.learn_states (modelAfter C N) 1).history.val_p_loss
      = Except.ok (pVal C N) := pyIdx0_ne _ h4.2.1
  have hc : pyIdx0 (C.learn_states (modelAfter C N) 1).history.val_c_loss
      = Except.ok (cVal C N) := pyIdx0_ne _ h4.2.2.1
  have hr : pyIdx0 (C.learn_states (modelAfter C N) 1).history.val_r_loss
      = Except.ok (rVal C N) := pyIdx0_ne _ h4.2.2.2
  have hperf : perfFill C ((C.learn_states (modelAfter C N) 1).states) N n_qlearnings
      (fun e q ep st =>
        if e < N ∧ q < n_qlearnings ∧ ep < n_test_episodes ∧ st < n_test_steps
        then flatAt (trialSpec C e q).rewards ep st else 0)
      = fun e q ep st =>
        if e < N + 1 ∧ q < n_qlearnings ∧ ep < n_test_episodes ∧ st < n_test_steps
        then flatAt (trialSpec C e q).rewards ep st else 0 := by
    funext e' q' ep stp
    simp only [perfFill]
    by_cases h1 : e' = N ∧ q' < n_qlearnings ∧ ep < n_test_episodes ∧ stp < n_test_steps
    · obtain ⟨he, hq, hrest⟩ := h1
      subst he
      rw [if_pos ⟨rfl, hq, hrest⟩, if_pos ⟨Nat.lt_succ_self _, hq, hrest⟩]
      rfl
    · rw [if_neg h1]
      by_cases h2 : e' < N ∧ q' < n_qlearnings ∧ ep < n_test_episodes ∧ stp < n_test_steps
      · rw [if_pos h2, if_pos ⟨Nat.lt_succ_of_lt h2.1, h2.2⟩]
      · rw [if_neg h2, if_neg (fun hcon => by
          obtain ⟨he, hrest⟩ := hcon
          rcases Nat.lt_succ_iff_lt_or_eq.1 he with hlt | heq
          · exact h2 ⟨hlt, hrest⟩
          · exact h1 ⟨heq, hrest⟩)]
  simp only [runEpoch, specState]
  rw [ht, hp, hc, hr]
  dsimp only
  rw [write1_step num_epochs N (tVal C), write1_step num_epochs N (pVal C),
      write1_step num_epochs N (cVal C), write1_step num_epochs N (rVal C)]
  by_cases hpl : N = 0 ∨ (N + 1) % 5 = 0
  · rw [if_pos hpl]
    rw [runTrials_ok C hWF _ N _ n_qlearnings]
    have hfilter : (List.range (N + 1)).filter plotCond
        = (List.range N).filter plotCond ++ [N] := by
      rw [List.range_succ, List.filter_append]
      have : plotCond N = true := by
        simp only [plotCond, Bool.or_eq_true, beq_iff_eq]
        exact hpl
      simp [this]
    rw [hperf, hfilter, ← List.replicate_succ']
    rfl
  · rw [if_neg hpl]
    rw [runTrials_ok C hWF _ N _ n_qlearnings]
    have hfilter : (List.range (N + 1)).filter plotCond
        = (List.range N).filter plotCond := by
      rw [List.range_succ, List.filter_append]
      have : plotCond N = false := by
        simp only [plotCond, Bool.or_eq_false_iff, beq_eq_false_iff_ne]
        constructor
        · intro h0
          exact hpl (Or.inl h0)
        · intro h5
          exact hpl (Or.inr h5)
      simp [this]
    rw [hperf, hfilter, ← List.replicate_succ']
    rfl

lemma runEpochs_ok {Model States Policy : Type} (C : Collab Model States Policy)
    (hWF : C.WF) (num_epochs : Nat) :
    ∀ N, runEpochs C num_epochs N = .ok (specState C num_epochs N) := by
  intro N
  induction N with
  | zero =>
      have h0 : initState C num_epochs = specState C num_epochs 0 := by
        unfold initState specState np_zeros1 np_zeros4
        congr 1
      rw [runEpochs, h0]
  | succ N ih =>
      rw [runEpochs, ih]
      dsimp only
      rw [runEpoch_ok C hWF]

lemma normalizeRecordto_ne (r : String) (h : r ≠ "") : normalizeRecordto r ≠ "" := by
  unfold normalizeRecordto
  split_ifs with hc
  · intro habs
    have := congrArg String.length habs
    simp [String.length_append] at this
    exact absurd this.2 (by decide)
  · exact h

lemma checkArgs_ok (a : Args) (hrec : a.recordto ≠ "")
    (h0 : 0 < a.validation_ratio) (h1 : a.validation_ratio < 1) :
    checkArgs a = .ok { a with recordto := normalizeRecordto a.recordto } := by
  unfold checkArgs
  have hne : normalizeRecordto a.recordto ≠ "" := normalizeRecordto_ne _ hrec
  rw [if_neg (by simp [hne]), if_neg (by simp [hne]), if_neg (by
    push_neg
    exact ⟨h0, h1⟩)]

lemma runMain_ql {Model States Policy : Type} (C : Collab Model States Policy)
    (hWF : C.WF) (a : Args) (hql : a.qlearning = true) (hrec : a.recordto ≠ "")
    (h0 : 0 < a.validation_ratio) (h1 : a.validation_ratio < 1) :
    runMain C a = .ok (finishQL { a with recordto := normalizeRecordto a.recordto }
      (chosenSeed a.seed C.wallclock)
      (specState C a.num_epochs a.num_epochs)) := by
  unfold runMain
  rw [checkArgs_ok a hrec h0 h1]
  dsimp only
  rw [if_pos hql, runEpochs_ok C hWF]

lemma runMain_simple {Model States Policy : Type} (C : Collab Model States Policy)
    (a : Args) (hql : a.qlearning = false)
    (hout : a.recordto ≠ "" ∨ a.display = true)
    (h0 : 0 < a.validation_ratio) (h1 : a.validation_ratio < 1) :
    runMain C a = .ok (finishSimple { a with recordto := normalizeRecordto a.recordto }
      (chosenSeed a.seed C.wallclock)
      (C.learn_states C.init_model a.num_epochs)) := by
  unfold runMain checkArgs
  rcases hout with hrec | hdisp
  · have hne : normalizeRecordto a.recordto ≠ "" := normalizeRecordto_ne _ hrec
    rw [if_neg (by simp [hne]), if_neg (by simp [hql]), if_neg (by
      push_neg
      exact ⟨h0, h1⟩)]
    dsimp only
    rw [if_neg (by simp [hql])]
  · rw [if_neg (by simp [hdisp]), if_neg (by simp [hql]), if_neg (by
      push_neg
      exact ⟨h0, h1⟩)]
    dsimp only
    rw [if_neg (by simp [hql])]

lemma trialsUpTo_length {Model States Policy : Type} (C : Collab Model States Policy)
    (N : Nat) : (trialsUpTo C N).length = N * n_qlearnings := by
  induction N with
  | zero => rfl
  | succ N ih => simp [trialsUpTo, ih, Nat.succ_mul]

lemma trialsUpTo_mem {Model States Policy : Type} (C : Collab Model States Policy)
    (N : Nat) (rec : TrialRecord States Policy) :
    rec ∈ trialsUpTo C N ↔ ∃ e, e < N ∧ ∃ q, q < n_qlearnings ∧ rec = trialSpec C e q := by
  induction N with
  | zero => simp [trialsUpTo]
  | succ N ih =>
      rw [trialsUpTo, List.mem_append, ih]
      simp only [List.mem_map, List.mem_range]
      constructor
      · rintro (⟨e, he, q, hq, hrec⟩ | ⟨q, hq, hrec⟩)
        · exact ⟨e, Nat.lt_succ_of_lt he, q, hq, hrec⟩
        · exact ⟨N, Nat.lt_succ_self N, q, hq, hrec.symm⟩
      · rintro ⟨e, he, q, hq, hrec⟩
        rcases Nat.lt_succ_iff_lt_or_eq.1 he with hlt | heq
        · exact Or.inl ⟨e, hlt, q, hq, hrec⟩
        · subst heq
          exact Or.inr ⟨q, hq, hrec.symm⟩

lemma trialsUpTo_pairwise {Model States Policy : Type} (C : Collab Model States Policy)
    (N : Nat) :
    List.Pairwise (fun r1 r2 : TrialRecord States Policy =>
      r1.epoch ≠ r2.epoch ∨ r1.trial ≠ r2.trial) (trialsUpTo C N) := by
  induction N with
  | zero => exact List.Pairwise.nil
  | succ N ih =>
      rw [trialsUpTo]
      refine List.pairwise_append.2 ⟨ih, ?_, ?_⟩
      · refine List.Pairwise.map _ (fun q1 q2 hlt => ?_)
          (List.pairwise_lt_range n_qlearnings)
        exact Or.inr (Nat.ne_of_lt hlt)
      · intro r1 h1 r2 h2
        obtain ⟨e, he, q, hq, hrec⟩ := (trialsUpTo_mem C N r1).1 h1
        obtain ⟨q2, hq2, hrec2⟩ := List.mem_map.1 h2
        refine Or.inl ?_
        rw [hrec, ← hrec2]
        exact Nat.ne_of_lt he

lemma finDiv_isSome (x w : ℚ) : (finDiv x w).isSome ↔ w ≠ 0 := by
  unfold finDiv
  split_ifs with h
  · simp [h]
  · simp [h]

lemma checkArgs_err_of_bad_ratio (a : Args)
    (hbad : a.validation_ratio ≤ 0 ∨ 1 ≤ a.validation_ratio) :
    ∃ e, checkArgs a = .error e := by
  unfold checkArgs
  dsimp only
  rw [if_pos hbad]
  split_ifs <;> exact ⟨_, rfl⟩

lemma runMain_err {Model States Policy : Type} (C : Collab Model States Policy)
    (a : Args) (e : ConfigError) (h : checkArgs a = .error e) :
    runMain C a = .error (.config e) := by
  unfold runMain
  rw [h]

lemma normalizeRecordto_empty : normalizeRecordto "" = "" := by
  simp [normalizeRecordto]

lemma checksPass_weights (a : Args) (w : Weights) :
    checksPass { a with weights := w } = checksPass a := by
  unfold checksPass checkArgs
  dsimp only
  split_ifs <;> rfl

lemma demoCollab_wf : demoCollab.WF := by
  constructor
  · intro m
    refine ⟨?_, ?_, ?_, ?_⟩ <;> simp [demoCollab, List.replicate]
  · intro p
    simp [demoCollab]

/-! ### Claim theorems -/

/-- C6: a `validation_ratio` outside the open interval `(0,1)` makes the
program fail with a fatal configuration error before any data loading,
model construction or training begins (the outcome is an error and is the
same for every collaborator assembly, so nothing after the checks is
reached); a ratio strictly inside `(0,1)` never trips this check. -/
theorem C6_validation_ratio_guard (a : Args)
    (hbad : a.validation_ratio ≤ 0 ∨ 1 ≤ a.validation_ratio) :
    (∀ (Model States Policy : Type) (C C' : Collab Model States Policy),
      (∃ e, runMain C a = .error (.config e)) ∧ runMain C a = runMain C' a) ∧
    (∀ a' : Args, 0 < a'.validation_ratio → a'.validation_ratio < 1 →
      checkArgs a' ≠ .error .wrongValidationRatio) := by
  obtain ⟨e, he⟩ := checkArgs_err_of_bad_ratio a hbad
  constructor
  · intro Model States Policy C C'
    exact ⟨⟨e, runMain_err C a e he⟩,
      by rw [runMain_err C a e he, runMain_err C' a e he]⟩
  · intro a' h0 h1
    unfold checkArgs
    dsimp only
    rw [if_neg (show ¬(a'.validation_ratio ≤ 0 ∨ 1 ≤ a'.validation_ratio) from by
      push_neg
      exact ⟨h0, h1⟩)]
    split_ifs <;> simp

/-- C7: requesting q-learning without a recording destination makes the
program fail with a fatal configuration error before any data loading or
training (error outcome, identical for every collaborator assembly); with
a nonempty recording destination this check never fires. -/
theorem C7_qlearning_needs_record (a : Args) (hql : a.qlearning = true)
    (hrec : a.recordto = "") :
    (∀ (Model States Policy : Type) (C C' : Collab Model States Policy),
      (∃ e, runMain C a = .error (.config e)) ∧ runMain C a = runMain C' a) ∧
    (∀ a' : Args, a'.recordto ≠ "" → checkArgs a' ≠ .error .qlearningNeedsRecord) := by
  have hn : normalizeRecordto a.recordto = "" := by
    rw [hrec, normalizeRecordto_empty]
  have herr : ∃ e, checkArgs a = .error e := by
    unfold checkArgs
    dsimp only
    rw [hn, hql, if_pos (show true = true ∧ ("" : String) = "" from ⟨rfl, rfl⟩)]
    split_ifs <;> exact ⟨_, rfl⟩
  obtain ⟨e, he⟩ := herr
  constructor
  · intro Model States Policy C C'
    exact ⟨⟨e, runMain_err C a e he⟩,
      by rw [runMain_err C a e he, runMain_err C' a e he]⟩
  · intro a' h
    have hne := normalizeRecordto_ne _ h
    unfold checkArgs
    dsimp only
    rw [if_neg (show ¬(a'.qlearning = true ∧ normalizeRecordto a'.recordto = "") from
      fun hc => hne hc.2)]
    split_ifs <;> simp

/-- C8: with neither a recording destination nor the display flag the
program fails with the dedicated fatal configuration error before any data
loading or training (identical outcome for every collaborator assembly);
selecting at least one of the two means this check never fires. -/
theorem C8_output_required (a : Args) (hrec : a.recordto = "")
    (hdisp : a.display = false) :
    (∀ (Model States Policy : Type) (C C' : Collab Model States Policy),
      runMain C a = .error (.config .noOutputSelected) ∧ runMain C a = runMain C' a) ∧
    (∀ a' : Args, a'.recordto ≠ "" ∨ a'.display = true →
      checkArgs a' ≠ .error .noOutputSelected) := by
  have hn : normalizeRecordto a.recordto = "" := by
    rw [hrec, normalizeRecordto_empty]
  have herr : checkArgs a = .error .noOutputSelected := by
    unfold checkArgs
    dsimp only
    rw [hn, hdisp, if_pos (by simp)]
  constructor
  · intro Model States Policy C C'
    exact ⟨runMain_err C a _ herr,
      by rw [runMain_err C a _ herr, runMain_err C' a _ herr]⟩
  · intro a' hout
    unfold checkArgs
    dsimp only
    rw [if_neg (by
      rcases hout with h | h
      · exact fun hc => hc (Or.inl (normalizeRecordto_ne _ h))
      · exact fun hc => hc (Or.inr h))]
    split_ifs <;> simp

/-- C10: `np.random.seed` receives the user seed only when it is present
and nonzero; an absent seed or the explicit seed `0` both fall back to the
wall-clock time, so two runs with seed `0` started at different times are
seeded differently. A successful run records exactly this chosen seed. -/
theorem C10_seed_truthiness :
    (∀ s t : Int, s ≠ 0 → chosenSeed (some s) t = s) ∧
    (∀ t : Int, chosenSeed (some 0) t = t) ∧
    (∀ t : Int, chosenSeed none t = t) ∧
    (∃ t1 t2 : Int, chosenSeed (some 0) t1 ≠ chosenSeed (some 0) t2) ∧
    (∀ (Model States Policy : Type) (C : Collab Model States Policy) (a : Args),
      a.qlearning = false → (a.recordto ≠ "" ∨ a.display = true) →
      0 < a.validation_ratio → a.validation_ratio < 1 →
      ∃ r, runMain C a = .ok r ∧ r.seedUsed = chosenSeed a.seed C.wallclock) := by
  refine ⟨?_, ?_, ?_, ⟨0, 1, by decide⟩, ?_⟩
  · intro s t hs
    simp [chosenSeed, hs]
  · intro t
    simp [chosenSeed]
  · intro t
    rfl
  · intro Model States Policy C a hql hout h0 h1
    exact ⟨_, runMain_simple C a hql hout h0 h1, rfl⟩

/-- C1: in q-learning mode the performance tensor is allocated with shape
`[num_epochs, 10, 20, 25]`, every trial of every epoch writes the complete
`[20, 25]` per-step reward slice of its rollout at
`[learning_epoch, trial, :, :]` (each rollout delivers exactly
`20 * 25` per-step rewards), and after the loop every cell of the tensor
holds the corresponding trial's reward. -/
theorem C1_performance_tensor {Model States Policy : Type}
    (C : Collab Model States Policy) (hWF : C.WF) (a : Args)
    (hql : a.qlearning = true) (hrec : a.recordto ≠ "")
    (h0 : 0 < a.validation_ratio) (h1 : a.validation_ratio < 1) :
    ∃ r, runMain C a = .ok r ∧ ∃ P, r.test_performance = some P ∧
      P.shape = (a.num_epochs, n_qlearnings, n_test_episodes, n_test_steps) ∧
      (∀ e q ep st, e < a.num_epochs → q < n_qlearnings → ep < n_test_episodes →
        st < n_test_steps → P.data e q ep st = flatAt (trialSpec C e q).rewards ep st) ∧
      (∀ e q, (trialSpec C e q).rewards.length = n_test_episodes * n_test_steps) := by
  refine ⟨_, runMain_ql C hWF a hql hrec h0 h1, _, rfl, rfl, ?_, ?_⟩
  · intro e q ep st he hq hep hst
    dsimp only [finishQL, specState]
    rw [if_pos ⟨he, hq, hep, hst⟩]
  · intro e q
    exact hWF.2 _

/-- C2: every epoch runs exactly `n_qlearnings` trials; each trial issues
a fit call on a freshly constructed Fitted Q-Iteration learner with
`n_rbf = 100` basis functions, the dataset's action count, discount `0.9`,
`10` iterations and `recompute_mapping = true`, on the current epoch's
state vectors; the fitted policy is exactly the one its own evaluation
rollout uses, and no two trial records share an (epoch, trial) slot. -/
theorem C2_fresh_policy_per_trial {Model States Policy : Type}
    (C : Collab Model States Policy) (hWF : C.WF) (a : Args)
    (hql : a.qlearning = true) (hrec : a.recordto ≠ "")
    (h0 : 0 < a.validation_ratio) (h1 : a.validation_ratio < 1) :
    ∃ r, runMain C a = .ok r ∧
      r.trials.length = a.num_epochs * n_qlearnings ∧
      (∀ rec ∈ r.trials,
        rec.fit.n_rbf = 100 ∧
        rec.fit.n_actions = C.training_data.num_actions ∧
        rec.fit.gamma = 9 / 10 ∧
        rec.fit.n_iterations = 10 ∧
        rec.fit.recompute_mapping = true ∧
        rec.fit.states = (learnAt C rec.epoch).states ∧
        rec.policy = C.fit_sk rec.fit ∧
        rec.rewards = C.run_in_env rec.policy n_test_episodes) ∧
      List.Pairwise (fun r1 r2 => r1.epoch ≠ r2.epoch ∨ r1.trial ≠ r2.trial) r.trials := by
  refine ⟨_, runMain_ql C hWF a hql hrec h0 h1, ?_, ?_, ?_⟩
  · exact trialsUpTo_length C a.num_epochs
  · intro rec hmem
    obtain ⟨e, he, q, hq, hrec2⟩ := (trialsUpTo_mem C a.num_epochs rec).1 hmem
    subst hrec2
    exact ⟨rfl, rfl, rfl, rfl, rfl, rfl, rfl, rfl⟩
  · exact trialsUpTo_pairwise C a.num_epochs

/-- C3: every iteration of the q-learning experiment loop calls the
training operation with `num_epochs = 1`, and stores the first (only)
entry of each of the four validation-loss histories of that call at index
`learning_epoch` of the corresponding loss record. -/
theorem C3_one_epoch_per_iteration {Model States Policy : Type}
    (C : Collab Model States Policy) (hWF : C.WF) (a : Args)
    (hql : a.qlearning = true) (hrec : a.recordto ≠ "")
    (h0 : 0 < a.validation_ratio) (h1 : a.validation_ratio < 1) :
    ∃ r, runMain C a = .ok r ∧
      r.learnCalls = List.replicate a.num_epochs 1 ∧
      (∀ e, e < a.num_epochs →
        r.t_rec.data e = tVal C e ∧ r.p_rec.data e = pVal C e ∧
        r.c_rec.data e = cVal C e ∧ r.r_rec.data e = rVal C e) := by
  refine ⟨_, runMain_ql C hWF a hql hrec h0 h1, rfl, ?_⟩
  intro e he
  refine ⟨?_, ?_, ?_, ?_⟩ <;>
    (dsimp only [finishQL, specState]; rw [if_pos he])

/-- C4: the experiment loop performs exactly `num_epochs` iterations and
then exits: for every well-formed collaborator assembly (regardless of all
loss and reward values) the run succeeds, reaching the plotting stage, and
the trace shows exactly `num_epochs` training calls. -/
theorem C4_loop_exact_epochs {Model States Policy : Type}
    (C : Collab Model States Policy) (hWF : C.WF) (a : Args)
    (hql : a.qlearning = true) (hrec : a.recordto ≠ "")
    (h0 : 0 < a.validation_ratio) (h1 : a.validation_ratio < 1) :
    ∃ r, runMain C a = .ok r ∧ r.learnCalls.length = a.num_epochs := by
  refine ⟨_, runMain_ql C hWF a hql hrec h0 h1, ?_⟩
  dsimp only [finishQL, specState]
  exact List.length_replicate a.num_epochs 1

/-- C5: the representation-plotting collaborator is triggered exactly on
the first epoch and on the epochs where `learning_epoch + 1` is divisible
by 5, and on no other epoch. -/
theorem C5_plot_epochs {Model States Policy : Type}
    (C : Collab Model States Policy) (hWF : C.WF) (a : Args)
    (hql : a.qlearning = true) (hrec : a.recordto ≠ "")
    (h0 : 0 < a.validation_ratio) (h1 : a.validation_ratio < 1) :
    ∃ r, runMain C a = .ok r ∧
      r.plots = (List.range a.num_epochs).filter plotCond ∧
      (∀ e, e ∈ r.plots ↔ (e < a.num_epochs ∧ (e = 0 ∨ 5 ∣ (e + 1)))) := by
  refine ⟨_, runMain_ql C hWF a hql hrec h0 h1, rfl, ?_⟩
  intro e
  dsimp only [finishQL, specState]
  rw [List.mem_filter, List.mem_range]
  simp only [plotCond, Bool.or_eq_true, beq_iff_eq]
  constructor
  · rintro ⟨hlt, h⟩
    exact ⟨hlt, by omega⟩
  · rintro ⟨hlt, h⟩
    exact ⟨hlt, by omega⟩

/-- C9: after the loop, each loss record is divided elementwise by its
weight — temporal by `weights[0]`, proportionality by `weights[1]`,
causality by `weights[2]`, repeatability by `weights[3]` — with no guard:
an entry of the unweighted series is a finite value exactly when the
corresponding weight is nonzero, and the configuration checks accept zero
weights (they are insensitive to the weights entirely). -/
theorem C9_unweighting {Model States Policy : Type}
    (C : Collab Model States Policy) (hWF : C.WF) (a : Args)
    (hout : a.recordto ≠ "" ∨ a.display = true)
    (hqlrec : a.qlearning = true → a.recordto ≠ "")
    (h0 : 0 < a.validation_ratio) (h1 : a.validation_ratio < 1) :
    ∃ r, runMain C a = .ok r ∧
      (∀ i, r.t_unw i = finDiv (r.t_rec.data i) (a.weights.idx 0) ∧
            r.p_unw i = finDiv (r.p_rec.data i) (a.weights.idx 1) ∧
            r.c_unw i = finDiv (r.c_rec.data i) (a.weights.idx 2) ∧
            r.r_unw i = finDiv (r.r_rec.data i) (a.weights.idx 3)) ∧
      (∀ i, ((r.t_unw i).isSome ↔ a.weights.idx 0 ≠ 0) ∧
            ((r.p_unw i).isSome ↔ a.weights.idx 1 ≠ 0) ∧
            ((r.c_unw i).isSome ↔ a.weights.idx 2 ≠ 0) ∧
            ((r.r_unw i).isSome ↔ a.weights.idx 3 ≠ 0)) ∧
      (∀ a' : Args, checksPass { a' with weights := ⟨0, 0, 0, 0⟩ } = checksPass a') := by
  by_cases hql : a.qlearning = true
  · refine ⟨_, runMain_ql C hWF a hql (hqlrec hql) h0 h1, ?_, ?_, ?_⟩
    · intro i
      exact ⟨rfl, rfl, rfl, rfl⟩
    · intro i
      exact ⟨finDiv_isSome _ _, finDiv_isSome _ _, finDiv_isSome _ _, finDiv_isSome _ _⟩
    · intro a'
      exact checksPass_weights a' _
  · rw [Bool.not_eq_true] at hql
    refine ⟨_, runMain_simple C a hql hout h0 h1, ?_, ?_, ?_⟩
    · intro i
      exact ⟨rfl, rfl, rfl, rfl⟩
    · intro i
      exact ⟨finDiv_isSome _ _, finDiv_isSome _ _, finDiv_isSome _ _, finDiv_isSome _ _⟩
    · intro a'
      exact checksPass_weights a' _

/-! ### Witnesses: the claim theorems applied at concrete inputs -/

theorem C1_witness :
    (demoCollab.WF ∧ demoArgs.qlearning = true ∧ demoArgs.recordto ≠ "" ∧
      0 < demoArgs.validation_ratio ∧ demoArgs.validation_ratio < 1) ∧
    (∃ r, runMain demoCollab demoArgs = .ok r ∧ ∃ P, r.test_performance = some P ∧
      P.shape = (demoArgs.num_epochs, n_qlearnings, n_test_episodes, n_test_steps) ∧
      (∀ e q ep st, e < demoArgs.num_epochs → q < n_qlearnings → ep < n_test_episodes →
        st < n_test_steps →
        P.data e q ep st = flatAt (trialSpec demoCollab e q).rewards ep st) ∧
      (∀ e q, (trialSpec demoCollab e q).rewards.length
        = n_test_episodes * n_test_steps)) :=
  ⟨⟨demoCollab_wf, rfl, by decide, by norm_num [demoArgs], by norm_num [demoArgs]⟩,
    C1_performance_tensor demoCollab demoCollab_wf demoArgs rfl (by decide)
      (by norm_num [demoArgs]) (by norm_num [demoArgs])⟩

theorem C2_witness :
    (demoCollab.WF ∧ demoArgs.qlearning = true ∧ demoArgs.recordto ≠ "" ∧
      0 < demoArgs.validation_ratio ∧ demoArgs.validation_ratio < 1) ∧
    (∃ r, runMain demoCollab demoArgs = .ok r ∧
      r.trials.length = demoArgs.num_epochs * n_qlearnings ∧
      (∀ rec ∈ r.trials,
        rec.fit.n_rbf = 100 ∧
        rec.fit.n_actions = demoCollab.training_data.num_actions ∧
        rec.fit.gamma = 9 / 10 ∧
        rec.fit.n_iterations = 10 ∧
        rec.fit.recompute_mapping = true ∧
        rec.fit.states = (learnAt demoCollab rec.epoch).states ∧
        rec.policy = demoCollab.fit_sk rec.fit ∧
        rec.rewards = demoCollab.run_in_env rec.policy n_test_episodes) ∧
      List.Pairwise (fun r1 r2 => r1.epoch ≠ r2.epoch ∨ r1.trial ≠ r2.trial) r.trials) :=
  ⟨⟨demoCollab_wf, rfl, by decide, by norm_num [demoArgs], by norm_num [demoArgs]⟩,
    C2_fresh_policy_per_trial demoCollab demoCollab_wf demoArgs rfl (by decide)
      (by norm_num [demoArgs]) (by norm_num [demoArgs])⟩

theorem C3_witness :
    (demoCollab.WF ∧ demoArgs.qlearning = true ∧ demoArgs.recordto ≠ "" ∧
      0 < demoArgs.validation_ratio ∧ demoArgs.validation_ratio < 1) ∧
    (∃ r, runMain demoCollab demoArgs = .ok r ∧
      r.learnCalls = List.replicate demoArgs.num_epochs 1 ∧
      (∀ e, e < demoArgs.num_epochs →
        r.t_rec.data e = tVal demoCollab e ∧ r.p_rec.data e = pVal demoCollab e ∧
        r.c_rec.data e = cVal demoCollab e ∧ r.r_rec.data e = rVal demoCollab e)) :=
  ⟨⟨demoCollab_wf, rfl, by decide, by norm_num [demoArgs], by norm_num [demoArgs]⟩,
    C3_one_epoch_per_iteration demoCollab demoCollab_wf demoArgs rfl (by decide)
      (by norm_num [demoArgs]) (by norm_num [demoArgs])⟩

theorem C4_witness :
    (demoCollab.WF ∧ demoArgs.qlearning = true ∧ demoArgs.recordto ≠ "" ∧
      0 < demoArgs.validation_ratio ∧ demoArgs.validation_ratio < 1) ∧
    (∃ r, runMain demoCollab demoArgs = .ok r ∧
      r.learnCalls.length = demoArgs.num_epochs) :=
  ⟨⟨demoCollab_wf, rfl, by decide, by norm_num [demoArgs], by norm_num [demoArgs]⟩,
    C4_loop_exact_epochs demoCollab demoCollab_wf demoArgs rfl (by decide)
      (by norm_num [demoArgs]) (by norm_num [demoArgs])⟩

theorem C5_witness :
    (demoCollab.WF ∧ demoArgs.qlearning = true ∧ demoArgs.recordto ≠ "" ∧
      0 < demoArgs.validation_ratio ∧ demoArgs.validation_ratio < 1) ∧
    (∃ r, runMain demoCollab demoArgs = .ok r ∧
      r.plots = (List.range demoArgs.num_epochs).filter plotCond ∧
      (∀ e, e ∈ r.plots ↔ (e < demoArgs.num_epochs ∧ (e = 0 ∨ 5 ∣ (e + 1))))) :=
  ⟨⟨demoCollab_wf, rfl, by decide, by norm_num [demoArgs], by norm_num [demoArgs]⟩,
    C5_plot_epochs demoCollab demoCollab_wf demoArgs rfl (by decide)
      (by norm_num [demoArgs]) (by norm_num [demoArgs])⟩

theorem C6_witness :
    ((({ demoArgs with validation_ratio := 2 } : Args).validation_ratio ≤ 0 ∨
        1 ≤ ({ demoArgs with validation_ratio := 2 } : Args).validation_ratio) ∧
      (∃ e, runMain demoCollab { demoArgs with validation_ratio := 2 }
        = .error (.config e))) ∧
    checkArgs demoArgs ≠ .error .wrongValidationRatio := by
  have h := C6_validation_ratio_guard { demoArgs with validation_ratio := 2 }
    (Or.inr (by norm_num))
  exact ⟨⟨Or.inr (by norm_num), (h.1 Nat Nat Nat demoCollab demoCollab).1⟩,
    h.2 demoArgs (by norm_num [demoArgs]) (by norm_num [demoArgs])⟩

theorem C7_witness :
    ((({ demoArgs with recordto := "" } : Args).qlearning = true ∧
        ({ demoArgs with recordto := "" } : Args).recordto = "") ∧
      (∃ e, runMain demoCollab { demoArgs with recordto := "" }
        = .error (.config e))) ∧
    checkArgs demoArgs ≠ .error .qlearningNeedsRecord := by
  have h := C7_qlearning_needs_record { demoArgs with recordto := "" } rfl rfl
  exact ⟨⟨⟨rfl, rfl⟩, (h.1 Nat Nat Nat demoCollab demoCollab).1⟩,
    h.2 demoArgs (by decide)⟩

theorem C8_witness :
    ((({ demoArgs with recordto := "" } : Args).recordto = "" ∧
        ({ demoArgs with recordto := "" } : Args).display = false) ∧
      runMain demoCollab { demoArgs with recordto := "" }
        = .error (.config .noOutputSelected)) ∧
    checkArgs demoArgs ≠ .error .noOutputSelected := by
  have h := C8_output_required { demoArgs with recordto := "" } rfl rfl
  exact ⟨⟨⟨rfl, rfl⟩, (h.1 Nat Nat Nat demoCollab demoCollab).1⟩,
    h.2 demoArgs (Or.inl (by decide))⟩

theorem C9_witness :
    (demoCollab.WF ∧ (demoArgs.recordto ≠ "" ∨ demoArgs.display = true) ∧
      0 < demoArgs.validation_ratio ∧ demoArgs.validation_ratio < 1) ∧
    (∃ r, runMain demoCollab demoArgs = .ok r ∧
      (∀ i, r.t_unw i = finDiv (r.t_rec.data i) (demoArgs.weights.idx 0) ∧
            r.p_unw i = finDiv (r.p_rec.data i) (demoArgs.weights.idx 1) ∧
            r.c_unw i = finDiv (r.c_rec.data i) (demoArgs.weights.idx 2) ∧
            r.r_unw i = finDiv (r.r_rec.data i) (demoArgs.weights.idx 3)) ∧
      (∀ i, ((r.t_unw i).isSome ↔ demoArgs.weights.idx 0 ≠ 0) ∧
            ((r.p_unw i).isSome ↔ demoArgs.weights.idx 1 ≠ 0) ∧
            ((r.c_unw i).isSome ↔ demoArgs.weights.idx 2 ≠ 0) ∧
            ((r.r_unw i).isSome ↔ demoArgs.weights.idx 3 ≠ 0)) ∧
      (∀ a' : Args, checksPass { a' with weights := ⟨0, 0, 0, 0⟩ } = checksPass a')) :=
  ⟨⟨demoCollab_wf, Or.inl (by decide), by norm_num [demoArgs], by norm_num [demoArgs]⟩,
    C9_unweighting demoCollab demoCollab_wf demoArgs (Or.inl (by decide))
      (fun _ => by decide) (by norm_num [demoArgs]) (by norm_num [demoArgs])⟩

theorem C10_witness :
    (3 : Int) ≠ 0 ∧ chosenSeed (some 3) 99 = 3 ∧ chosenSeed (some 0) 7 = 7 :=
  ⟨by decide, C10_seed_truthiness.1 3 99 (by decide), C10_seed_truthiness.2.1 7⟩

end RoboticPriors
